import Mathlib

/-!
Shallow embedding of the ln2t-tools orchestrator (package `ln2t_tools`):
the participant resolver, output reconciler, job command builder, image
provisioner and runner from `ln2t_tools/utils/utils.py`, and the
subject-directory builder and main-loop fragments from
`ln2t_tools/ln2t_tools.py`.  Python strings are modelled as Lean `String`
(a list of characters, matching Python code-point slicing), Python `None`
as `Option.none`, raised exceptions as `Except.error`, and the filesystem
as an explicit list of existing paths or directory entries.
-/

/-- Truthiness of a Python optional string: `None` and `""` are falsy. -/
def pyTruthyStr : Option String → Bool
  | none => false
  | some s => s != ""

/-- Truthiness of a Python optional list: `None` and `[]` are falsy. -/
def pyTruthyList : Option (List String) → Bool
  | none => false
  | some l => !l.isEmpty

/-- Does the second character list begin with the first one? -/
def charsLead : List Char → List Char → Bool
  | [], _ => true
  | _ :: _, [] => false
  | a :: pat, b :: s => a == b && charsLead pat s

/-- Does the character list `s` contain `pat` as a contiguous run? -/
def charsContain (s pat : List Char) : Bool :=
  match s with
  | [] => charsLead pat []
  | _ :: rest => charsLead pat s || charsContain rest pat

/-- String containment test (Python `pat in s`). -/
def strContain (s pat : String) : Bool := charsContain s.data pat.data

/-- Python `s.startswith(p)` / what a glob pattern `p + "*"` matches. -/
def pyStartsWith (s p : String) : Bool := charsLead p.data s.data

/-- Python slice `s[n:]` (by code points). -/
def pySliceFrom (s : String) (n : Nat) : String := ⟨s.data.drop n⟩

/-- Python `sep.join parts`. -/
def joinStr (sep : String) : List String → String
  | [] => ""
  | [p] => p
  | p :: ps => p ++ sep ++ joinStr sep ps

/-- Embedding of `build_bids_subdir` from `ln2t_tools/ln2t_tools.py` (lines 142-153):
`parts = ["sub-" + label]`, appending `"ses-" + session` and
`"run-" + run` when truthy, then `"_".join(parts)`. -/
def build_bids_subdir (participant_label : String) (session : Option String)
    (run : Option String) : String :=
  let parts := ["sub-" ++ participant_label]
  let parts := if pyTruthyStr session then parts ++ ["ses-" ++ session.getD ""] else parts
  let parts := if pyTruthyStr run then parts ++ ["run-" ++ run.getD ""] else parts
  joinStr "_" parts

/-- An immediate entry of the output directory: its name and whether it is
a directory (`d.is_dir()`). -/
structure DirEntry where
  name : String
  isDir : Bool

/-- The set comprehension in `list_missing_subjects`
(`ln2t_tools/utils/utils.py` lines 99-102):
`{d.name[4:] for d in output_dir.glob("sub-*") if d.is_dir()}`. -/
def processed_subjects (entries : List DirEntry) : List String :=
  (entries.filter (fun d => pyStartsWith d.name "sub-" && d.isDir)).map
    (fun d => pySliceFrom d.name 4)

/-- The missing set computed by `list_missing_subjects`
(`ln2t_tools/utils/utils.py` lines 96-104): `raw_subjects` comes from the
BIDS index and `missing = raw_subjects - processed_subjects`. -/
def missing_subjects (raw_subjects : List String) (entries : List DirEntry) : List String :=
  raw_subjects.filter (fun s => decide (s ∉ processed_subjects entries))

/-- Embedding of `check_participants_exist` from `ln2t_tools/utils/utils.py`
(lines 121-145).  `subjects` models `layout.get_subjects()`.  The first
component collects the `warn(...)` messages emitted for dropped entries;
the `ValueError` raised when no requested participant is valid is the
`Except.error` case. -/
def check_participants_exist (subjects : List String) (participant_list : List String) :
    List String × Except String (List String) :=
  if participant_list.isEmpty then ([], Except.ok subjects)
  else
    let kept := participant_list.filter (fun p => decide (p ∈ subjects))
    let warnings := (participant_list.filter (fun p => decide (p ∉ subjects))).map
      (fun p => "Participant " ++ p ++ " not found in the dataset, removing from the list.")
    if kept.isEmpty then (warnings, Except.error "No valid participants found in the dataset.")
    else (warnings, Except.ok kept)

/-- The participant-list expression in `main`
(`ln2t_tools/ln2t_tools.py` lines 275-276):
`args.participant_list or [args.participant_label] if args.participant_label else []`.
Python conditional expressions bind loosest, so this parses as
`(args.participant_list or [args.participant_label]) if args.participant_label else []`. -/
def main_participant_list (participant_list : Option (List String))
    (participant_label : Option String) : List String :=
  if pyTruthyStr participant_label then
    (if pyTruthyList participant_list then participant_list.getD []
     else [participant_label.getD ""])
  else []

/-- The tool-to-registry-owner map in `ensure_image_exists`
(`ln2t_tools/utils/utils.py` lines 50-55); an unsupported tool raises
`ValueError`. -/
def tool_owner (tool : String) : Except String String :=
  if tool = "freesurfer" then Except.ok "freesurfer"
  else if tool = "fmriprep" then Except.ok "nipreps"
  else Except.error ("Unsupported tool: " ++ tool)

/-- The image path `apptainer_dir / f"{tool_owner}.{tool}.{version}.sif"`
(`ln2t_tools/utils/utils.py` line 56). -/
def image_path_of (apptainer_dir owner tool version : String) : String :=
  apptainer_dir ++ "/" ++ owner ++ "." ++ tool ++ "." ++ version ++ ".sif"

/-- Outcome of `ensure_image_exists`: the returned path (or raised error),
the build commands passed to `os.system`, and the final filesystem. -/
structure EnsureOutcome where
  result : Except String String
  builds : List String
  finalFs : List String

/-- Embedding of `ensure_image_exists` from `ln2t_tools/utils/utils.py` (lines 32-71).
The filesystem is the list `fs` of existing paths; `os.system` on the
build command is the function `build`, returning the exit code and the
filesystem after the attempt. -/
def ensure_image_exists (fs : List String) (build : String → Int × List String)
    (apptainer_dir tool version : String) : EnsureOutcome :=
  match tool_owner tool with
  | Except.error e => ⟨Except.error e, [], fs⟩
  | Except.ok owner =>
    let image_path := image_path_of apptainer_dir owner tool version
    if image_path ∈ fs then ⟨Except.ok image_path, [], fs⟩
    else
      let build_cmd := "apptainer build " ++ image_path ++ " docker://" ++ owner
        ++ "/" ++ tool ++ ":" ++ version
      let br := build build_cmd
      if br.1 ≠ 0 ∨ image_path ∉ br.2 then
        ⟨Except.error ("Failed to build Apptainer image: " ++ image_path), [build_cmd], br.2⟩
      else ⟨Except.ok image_path, [build_cmd], br.2⟩

/-- The keyword options passed to `build_apptainer_cmd`
(`ln2t_tools/utils/utils.py` lines 170-215).  Options the call sites in
`ln2t_tools/ln2t_tools.py` supply but the builder may ignore are included
as fields so that their (non-)effect can be stated. -/
structure ApptainerOptions where
  fs_license : Option String := none
  rawdata : String := ""
  derivatives : String := ""
  apptainer_img : String := ""
  participant_label : String := ""
  output_label : String := ""
  t1w : String := ""
  session : Option String := none
  run : Option String := none
  flair_option : Option String := none
  fs_no_reconall : Option String := none
  fs_subjects_dir : Option String := none
  output_spaces : Option String := none
  nprocs : Nat := 8
  omp_nthreads : Nat := 8

/-- Embedding of `build_apptainer_cmd` from `ln2t_tools/utils/utils.py`
(lines 170-215), both tool branches; raised `ValueError`s are the
`Except.error` cases. -/
def build_apptainer_cmd (tool : String) (options : ApptainerOptions) : Except String String :=
  if tool = "freesurfer" then
    match options.fs_license with
    | none => Except.error "FreeSurfer license file path is required"
    | some fs_license =>
      let subject_id := "sub-" ++ options.participant_label
      let subject_id := if pyTruthyStr options.session
        then subject_id ++ "_ses-" ++ options.session.getD "" else subject_id
      let subject_id := if pyTruthyStr options.run
        then subject_id ++ "_run-" ++ options.run.getD "" else subject_id
      Except.ok ("apptainer run -B " ++ fs_license ++ ":/usr/local/freesurfer/.license "
        ++ "-B " ++ options.rawdata ++ ":/rawdata -B " ++ options.derivatives
        ++ ":/derivatives " ++ options.apptainer_img ++ " recon-all -all -subjid "
        ++ subject_id ++ " " ++ "-i " ++ options.t1w ++ " " ++ "-sd /derivatives/"
        ++ options.output_label ++ " " ++ options.flair_option.getD "")
  else if tool = "fmriprep" then
    Except.ok ("apptainer run -B " ++ options.rawdata ++ ":/rawdata -B "
      ++ options.derivatives ++ ":/derivatives " ++ options.apptainer_img
      ++ " /rawdata /derivatives/fmriprep participant " ++ "--participant-label "
      ++ options.participant_label ++ " " ++ "--output-spaces MNI152NLin2009cAsym:res-2")
  else Except.error ("Unsupported tool: " ++ tool)

/-- Options as `process_fmriprep_subject` (`ln2t_tools/ln2t_tools.py`
lines 221-234) passes them for a subject with an existing sibling
FreeSurfer output and reuse enabled. -/
def fmriprepExampleOptions : ApptainerOptions :=
  { rawdata := "/data/ds-rawdata"
    derivatives := "/data/ds-derivatives"
    apptainer_img := "/opt/apptainer/nipreps.fmriprep.23.1.3.sif"
    participant_label := "01"
    output_label := "fmriprep_23.1.3"
    fs_no_reconall := some "--fs-no-reconall"
    fs_subjects_dir := some "/data/ds-derivatives/freesurfer_7.3.2/sub-01"
    output_spaces := some "MNI152NLin2009cAsym:res-2" }

/-- The names bound at module level in `ln2t_tools/utils/utils.py`
(its imports and top-level definitions).  `build_cmd` is not among them:
it occurs only as a local variable of `ensure_image_exists`. -/
def utilsGlobalNames : List String :=
  ["os", "shutil", "logging", "Path", "List", "Optional", "warn", "BIDSLayout",
   "DEFAULT_RAWDATA", "DEFAULT_DERIVATIVES", "logger",
   "check_apptainer_is_installed", "ensure_image_exists", "list_available_datasets",
   "list_missing_subjects", "check_file_exists", "check_participants_exist",
   "get_t1w_list", "get_flair_list", "build_apptainer_cmd", "launch_apptainer"]

/-- Python name resolution for a name used inside a function body: the
function's local names, then the module globals. -/
def lookupVar (n : String) (localNames globalNames : List String) : Option String :=
  if n ∈ localNames ∨ n ∈ globalNames then some n else none

/-- Embedding of `launch_apptainer` from `ln2t_tools/utils/utils.py` (lines 218-220):
its body is `print(...)` followed by `os.system(build_cmd)`.  Resolving
the name `build_cmd` fails (it is neither the parameter `apptainer_cmd`
nor a module global), raising `NameError`; and the body has no `return`
statement, so even a successful call would return `None` (`Option.none`),
never an exit code. -/
def launch_apptainer (apptainer_cmd : String) : Except String (Option Int) :=
  match lookupVar "build_cmd" ["apptainer_cmd"] utilsGlobalNames with
  | some _ => Except.ok none
  | none => Except.error "NameError: name build_cmd is not defined"

/-- The participant loop of `main` (`ln2t_tools/ln2t_tools.py` lines
281-306): subjects are processed in order; the surrounding
`try/except` logs any exception and re-raises it, so an exception from
one subject propagates out and no later subject is processed. -/
def process_loop (process : String → Except String Unit) : List String → Except String Unit
  | [] => Except.ok ()
  | p :: ps =>
    match process p with
    | Except.error e => Except.error e
    | Except.ok _ => process_loop process ps

/-- Claim C1 (counterexample): for raw subjects 01, 02, 03 and output
subdirectories `sub-01` and `sub-02_ses-A`, the claim says the missing
set is exactly the singleton 03; but `list_missing_subjects` strips only
the `sub-` text, keeping session qualifiers, so 02 is reported missing. -/
theorem C1_counterexample :
    "02" ∈ missing_subjects ["01", "02", "03"] [⟨"sub-01", true⟩, ⟨"sub-02_ses-A", true⟩]
    ∧ "02" ∉ (["03"] : List String) := by decide

/-- Claim C1 (amended): a raw subject is reported missing exactly when no
immediate subdirectory of the output directory is a directory whose name
is literally `sub-` followed by that label possibly with further
qualifiers that are part of the compared text: the comparison uses the
whole name after `sub-`, so a label counts processed only when some
directory name minus its first four characters equals the label; in the
example, missing is 02 and 03. -/
theorem C1_amended_spec :
    (∀ (raw : List String) (entries : List DirEntry) (s : String),
      s ∈ missing_subjects raw entries ↔
        s ∈ raw ∧ ∀ d ∈ entries, (pyStartsWith d.name "sub-" && d.isDir) = true →
          pySliceFrom d.name 4 ≠ s)
  ∧ missing_subjects ["01", "02", "03"] [⟨"sub-01", true⟩, ⟨"sub-02_ses-A", true⟩]
      = ["02", "03"] := by
  constructor
  · intro raw entries s
    simp only [missing_subjects, List.mem_filter, decide_eq_true_eq, processed_subjects,
      List.mem_map, not_exists, not_and]
    tauto
  · decide

/-- Claim C1 (witness): the amended characterization instantiated at the
example input and the label 03. -/
theorem C1_witness :
    "03" ∈ missing_subjects ["01", "02", "03"] [⟨"sub-01", true⟩, ⟨"sub-02_ses-A", true⟩] ↔
      "03" ∈ (["01", "02", "03"] : List String)
        ∧ ∀ d ∈ ([⟨"sub-01", true⟩, ⟨"sub-02_ses-A", true⟩] : List DirEntry),
            (pyStartsWith d.name "sub-" && d.isDir) = true → pySliceFrom d.name 4 ≠ "03" :=
  C1_amended_spec.1 ["01", "02", "03"] [⟨"sub-01", true⟩, ⟨"sub-02_ses-A", true⟩] "03"

/-- Claim C2: contrary to the claim, the participant list does not always
win.  The expression in `main` parses as
`(args.participant_list or [label]) if label else []`, so whenever
`--participant-label` is absent the whole expression is the empty list and
a supplied `--participant-list` is ignored. -/
theorem C2_spec :
    (∀ pl : Option (List String), main_participant_list pl none = [])
  ∧ main_participant_list (some ["01", "02"]) none ≠ ["01", "02"] := by
  refine ⟨fun pl => rfl, by decide⟩

/-- Claim C3: `launch_apptainer` never returns the runtime exit code: its
body calls `os.system(build_cmd)` where `build_cmd` is an unresolvable
name, so every call raises `NameError`; and because the participant loop
of `main` sits in a `try` whose handler re-raises, the first failing
subject aborts the whole batch (here subject 01 aborts before 02). -/
theorem C3_spec :
    (∀ cmd : String,
      launch_apptainer cmd = Except.error "NameError: name build_cmd is not defined")
  ∧ process_loop
      (fun _ => (launch_apptainer "apptainer run /opt/apptainer/nipreps.fmriprep.23.1.3.sif").map
        (fun _ => ()))
      ["01", "02"]
      = Except.error "NameError: name build_cmd is not defined" := by
  exact ⟨fun cmd => rfl, rfl⟩

/-- The fmriprep branch of `build_apptainer_cmd`
(`ln2t_tools/utils/utils.py` lines 207-213), stated as an equation. -/
theorem build_apptainer_cmd_fmriprep (options : ApptainerOptions) :
    build_apptainer_cmd "fmriprep" options =
      Except.ok ("apptainer run -B " ++ options.rawdata ++ ":/rawdata -B "
        ++ options.derivatives ++ ":/derivatives " ++ options.apptainer_img
        ++ " /rawdata /derivatives/fmriprep participant " ++ "--participant-label "
        ++ options.participant_label ++ " "
        ++ "--output-spaces MNI152NLin2009cAsym:res-2") := by
  simp [build_apptainer_cmd]

/-- The command `build_apptainer_cmd` produces on the fmriprep options of
`fmriprepExampleOptions`, as a single literal. -/
theorem fmriprep_cmd_example :
    build_apptainer_cmd "fmriprep" fmriprepExampleOptions =
      Except.ok ("apptainer run -B /data/ds-rawdata:/rawdata "
        ++ "-B /data/ds-derivatives:/derivatives "
        ++ "/opt/apptainer/nipreps.fmriprep.23.1.3.sif "
        ++ "/rawdata /derivatives/fmriprep participant "
        ++ "--participant-label 01 "
        ++ "--output-spaces MNI152NLin2009cAsym:res-2") := by
  rw [build_apptainer_cmd_fmriprep]
  rfl

/-- Claim C4: the fmriprep branch of `build_apptainer_cmd` ignores the
`fs_no_reconall` option entirely: the built command is independent of it,
and on the options `process_fmriprep_subject` passes for a subject with
an existing sibling FreeSurfer output and reuse enabled, the command does
not contain the `--fs-no-reconall` flag. -/
theorem C4_spec :
    (∀ (opts : ApptainerOptions) (x y : Option String),
      build_apptainer_cmd "fmriprep" { opts with fs_no_reconall := x }
        = build_apptainer_cmd "fmriprep" { opts with fs_no_reconall := y })
  ∧ ∃ cmd, build_apptainer_cmd "fmriprep" fmriprepExampleOptions = Except.ok cmd
      ∧ strContain cmd "--fs-no-reconall" = false := by
  constructor
  · intro opts x y
    simp [build_apptainer_cmd_fmriprep]
  · exact ⟨_, fmriprep_cmd_example, by decide⟩

/-- Claim C5: the fmriprep branch of `build_apptainer_cmd` hardcodes the
container output path `/derivatives/fmriprep` and is independent of the
`output_label` option, so with `output_label = "fmriprep_23.1.3"` the
command directs output to `/derivatives/fmriprep`, not to
`/derivatives/fmriprep_23.1.3` as the claim states. -/
theorem C5_spec :
    (∀ (opts : ApptainerOptions) (x y : String),
      build_apptainer_cmd "fmriprep" { opts with output_label := x }
        = build_apptainer_cmd "fmriprep" { opts with output_label := y })
  ∧ ∃ cmd, build_apptainer_cmd "fmriprep" fmriprepExampleOptions = Except.ok cmd
      ∧ strContain cmd "/derivatives/fmriprep participant" = true
      ∧ strContain cmd ("/derivatives/" ++ fmriprepExampleOptions.output_label) = false := by
  constructor
  · intro opts x y
    simp [build_apptainer_cmd_fmriprep]
  · exact ⟨_, fmriprep_cmd_example, by decide, by decide⟩

/-- Claim C6: for a non-empty requested sequence `check_participants_exist`
keeps exactly the requested entries present among the known subjects, in
requested order; it emits one warning per dropped entry; it raises the
no-valid-participants error precisely when no requested entry is known;
and for an empty requested sequence it returns the known subjects
unchanged. -/
theorem C6_spec (known requested : List String) :
    (requested = [] → check_participants_exist known requested = ([], Except.ok known))
  ∧ (requested ≠ [] →
      ((check_participants_exist known requested).2
          = Except.error "No valid participants found in the dataset."
        ↔ ∀ p ∈ requested, p ∉ known)
      ∧ ((∃ p ∈ requested, p ∈ known) →
          (check_participants_exist known requested).2
            = Except.ok (requested.filter (fun p => decide (p ∈ known))))
      ∧ (check_participants_exist known requested).1.length
          = (requested.filter (fun p => decide (p ∉ known))).length) := by
  constructor
  · intro h
    subst h
    rfl
  · intro h
    have hne : requested.isEmpty = false := by simp [List.isEmpty_iff, h]
    have hiff : requested.filter (fun p => decide (p ∈ known)) = []
        ↔ ∀ p ∈ requested, p ∉ known := by
      simp [List.filter_eq_nil_iff]
    by_cases hk : requested.filter (fun p => decide (p ∈ known)) = []
    · refine ⟨?_, ?_, ?_⟩
      · simp only [check_participants_exist, hne, Bool.false_eq_true, if_false, hk,
          List.isEmpty_nil, if_true]
        simpa using hiff.mp hk
      · rintro ⟨p, hp, hpk⟩
        exact absurd hpk (hiff.mp hk p hp)
      · simp [check_participants_exist, hne, hk]
    · have hk2 : (requested.filter (fun p => decide (p ∈ known))).isEmpty = false := by
        simp [List.isEmpty_iff, hk]
      refine ⟨?_, ?_, ?_⟩
      · simp only [check_participants_exist, hne, Bool.false_eq_true, if_false, hk2]
        simp only [reduceCtorEq, false_iff]
        exact fun hall => hk (hiff.mpr hall)
      · intro _
        simp [check_participants_exist, hne, hk2]
      · simp [check_participants_exist, hne, hk2]

/-- Claim C6 (witness): with known subjects 01, 02 and the request 03, 01,
entry 03 is dropped and the resolver returns just 01. -/
theorem C6_witness :
    ((["03", "01"] : List String) ≠ [])
  ∧ (∃ p ∈ (["03", "01"] : List String), p ∈ (["01", "02"] : List String))
  ∧ (check_participants_exist ["01", "02"] ["03", "01"]).2 = Except.ok ["01"] := by
  refine ⟨by decide, ⟨"01", by decide, by decide⟩, ?_⟩
  have h := ((C6_spec ["01", "02"] ["03", "01"]).2 (by decide)).2.1
    ⟨"01", by decide, by decide⟩
  simpa using h

/-- Claim C7: when the computed image path already exists in the
filesystem, `ensure_image_exists` returns that path, invokes the build
command zero times, and leaves the filesystem unchanged. -/
theorem C7_spec (fs : List String) (build : String → Int × List String)
    (apptainer_dir tool version owner : String)
    (h : tool_owner tool = Except.ok owner)
    (h2 : image_path_of apptainer_dir owner tool version ∈ fs) :
    ensure_image_exists fs build apptainer_dir tool version =
      ⟨Except.ok (image_path_of apptainer_dir owner tool version), [], fs⟩ := by
  unfold ensure_image_exists
  rw [h]
  simp [h2]

/-- Claim C7 (witness): with the fmriprep 23.1.3 image already present and
a build spy that would fail if invoked, `ensure_image_exists` returns the
path with zero build invocations and the filesystem unchanged. -/
theorem C7_witness :
    tool_owner "fmriprep" = Except.ok "nipreps"
  ∧ image_path_of "/opt/apptainer" "nipreps" "fmriprep" "23.1.3"
      ∈ ["/opt/apptainer/nipreps.fmriprep.23.1.3.sif"]
  ∧ ensure_image_exists ["/opt/apptainer/nipreps.fmriprep.23.1.3.sif"] (fun _ => (1, []))
        "/opt/apptainer" "fmriprep" "23.1.3"
      = ⟨Except.ok (image_path_of "/opt/apptainer" "nipreps" "fmriprep" "23.1.3"), [],
          ["/opt/apptainer/nipreps.fmriprep.23.1.3.sif"]⟩ := by
  refine ⟨rfl, by decide, ?_⟩
  exact C7_spec ["/opt/apptainer/nipreps.fmriprep.23.1.3.sif"] (fun _ => (1, []))
    "/opt/apptainer" "fmriprep" "23.1.3" "nipreps" rfl (by decide)

/-- Claim C8: `build_bids_subdir` concatenates, in fixed order, `sub-`
plus the label, then `_ses-` plus the session only when the session is
truthy, then `_run-` plus the run only when the run is truthy; in
particular the three examples from the specification hold. -/
theorem C8_spec :
    (∀ (label : String) (session run : Option String),
      build_bids_subdir label session run =
        "sub-" ++ label
          ++ (if pyTruthyStr session then "_ses-" ++ session.getD "" else "")
          ++ (if pyTruthyStr run then "_run-" ++ run.getD "" else ""))
  ∧ build_bids_subdir "01" (some "02") none = "sub-01_ses-02"
  ∧ build_bids_subdir "01" none (some "1") = "sub-01_run-1"
  ∧ build_bids_subdir "01" none none = "sub-01" := by
  refine ⟨?_, by decide, by decide, by decide⟩
  intro label session run
  cases hs : pyTruthyStr session <;> cases hr : pyTruthyStr run <;>
    (simp [build_bids_subdir, joinStr, hs, hr, String.append_assoc] <;> rfl)

/-- Claim C9: `build_bids_subdir` treats an empty-string session or run
like an absent one: the corresponding segment is omitted, because Python
truthiness makes the empty string falsy. -/
theorem C9_spec :
    ∀ (label : String) (r s : Option String),
      build_bids_subdir label (some "") r = build_bids_subdir label none r
    ∧ build_bids_subdir label s (some "") = build_bids_subdir label s none := by
  intro label r s
  exact ⟨rfl, rfl⟩

/-- Claim C10: the participant resolver preserves duplicates: a label
present among the known subjects occurs in the returned sequence as many
times as it occurs in the requested sequence. -/
theorem C10_spec (known requested : List String) (l : String)
    (h1 : l ∈ requested) (h2 : l ∈ known) :
    ∃ out, (check_participants_exist known requested).2 = Except.ok out
      ∧ out.count l = requested.count l := by
  have hne : requested.isEmpty = false := by
    cases requested with
    | nil => cases h1
    | cons a as => rfl
  have hklmem : l ∈ requested.filter (fun p => decide (p ∈ known)) := by
    simp [List.mem_filter, h1, h2]
  have hk2 : (requested.filter (fun p => decide (p ∈ known))).isEmpty = false := by
    cases hf : requested.filter (fun p => decide (p ∈ known)) with
    | nil => rw [hf] at hklmem; cases hklmem
    | cons a as => rfl
  have hcount : ∀ xs : List String,
      (xs.filter (fun p => decide (p ∈ known))).count l = xs.count l := by
    intro xs
    induction xs with
    | nil => rfl
    | cons a as ih =>
      by_cases ha : a ∈ known
      · simp [List.filter_cons, ha, List.count_cons, ih]
      · have hal : l ≠ a := fun hcon => ha (hcon ▸ h2)
        simp [List.filter_cons, ha, List.count_cons, ih, hal]
  refine ⟨requested.filter (fun p => decide (p ∈ known)), ?_, hcount requested⟩
  simp [check_participants_exist, hne, hk2]

/-- Claim C10 (witness): requesting 01 twice against known subject 01
returns 01 twice, so the subject would be processed twice. -/
theorem C10_witness :
    ("01" ∈ (["01", "01"] : List String)) ∧ ("01" ∈ (["01"] : List String))
  ∧ ∃ out, (check_participants_exist ["01"] ["01", "01"]).2 = Except.ok out
      ∧ out.count "01" = (["01", "01"] : List String).count "01" := by
  exact ⟨by decide, by decide, C10_spec ["01"] ["01", "01"] "01" (by decide) (by decide)⟩
